import Mathlib

/-!
Verification of the gas-estimation accuracy engine of
`scripts/test-gas-estimation.js`.

The engine consists of three pieces of the `GasEstimationTester` class:

* `calculateAccuracy(estimated, actual)` (lines 173-185) — the accuracy
  classifier.  All gas values are JavaScript `BigInt`s, embedded here as
  `Int`.  JavaScript `BigInt` division truncates toward zero, which is
  `Int.tdiv`; dividing by `0n` throws a `RangeError`, which is embedded as
  the `none` result.
* the collector — the `this.gasEstimations` array, appended to by
  `this.gasEstimations.push({...})` at the record sites (lines 214-219,
  377-383, 468-473).  Records store the gas values (as decimal strings in
  the source; the string round-trips the integer, so they are embedded as
  `Int`) together with the verdict computed by `calculateAccuracy` at
  record time.  Some record sites additionally attach a `function` label;
  no statistic ever reads it, so it is not modelled.
* `generateGasReport()` (lines 944-1002) and the per-type tallies of
  `testGasEstimationAccuracy()` (lines 901-941) — the aggregators.
-/

/-- The verdict object returned by `calculateAccuracy`.  The source stores
`differenceWei` as `diff.toString()` and `differencePercentage` as
`percentage.toString() + "%"`; both strings are decimal renderings of the
`BigInt` values kept here. -/
structure AccuracyVerdict where
  accurate : Bool
  overEstimated : Bool
  underEstimated : Bool
  differenceWei : Int
  differencePercentage : Int
  deriving Repr, DecidableEq

/-- Shallow embedding of `calculateAccuracy` (lines 173-185):

    const diff = estimated > actual ? estimated - actual : actual - estimated;
    const percentage = (diff * 100n) / actual;
    const overEstimated = estimated > actual;
    return {
      accurate: diff <= (actual * 5n) / 100n, // Within 5%
      overEstimated,
      underEstimated: !overEstimated,
      differenceWei: diff.toString(),
      differencePercentage: percentage.toString() + "%",
    };

`BigInt` division by `0n` throws a `RangeError` at the `percentage` line,
before the result object is built: this is the `none` branch.  `BigInt`
division truncates toward zero, hence `Int.tdiv`. -/
def calculateAccuracy (estimated actual : Int) : Option AccuracyVerdict :=
  let diff := if estimated > actual then estimated - actual else actual - estimated
  if actual = 0 then
    none
  else
    let percentage := Int.tdiv (diff * 100) actual
    let overEstimated := decide (estimated > actual)
    some {
      accurate := decide (diff ≤ Int.tdiv (actual * 5) 100)
      overEstimated := overEstimated
      underEstimated := !overEstimated
      differenceWei := diff
      differencePercentage := percentage }

/-- One element of the `this.gasEstimations` array: the records pushed at
lines 214-219, 377-383 and 468-473 carry an operation-category `type`
string, the estimated and actual gas (decimal strings of `BigInt`s in the
source, embedded by their integer values) and the `accuracy` verdict that
the record site computed via `calculateAccuracy`. -/
structure GasEstimation where
  type : String
  estimated : Int
  actual : Int
  accuracy : AccuracyVerdict
  deriving Repr, DecidableEq

/-- The mutable per-run state of `GasEstimationTester` that the accuracy
engine touches: the `this.gasEstimations` array. -/
structure TesterState where
  gasEstimations : List GasEstimation
  deriving Repr, DecidableEq

/-- The collector's record operation: `this.gasEstimations.push({...})`.
The source performs no validation of the pushed values — the push is
unconditional. -/
def pushEstimation (s : TesterState) (e : GasEstimation) : TesterState :=
  { s with gasEstimations := s.gasEstimations ++ [e] }

/-- `generateGasReport` line 961: `this.gasEstimations.reduce((sum, est) =>
sum + BigInt(est.estimated), 0n)`. -/
def totalEstimatedGas (gasEstimations : List GasEstimation) : Int :=
  gasEstimations.foldl (fun sum est => sum + est.estimated) 0

/-- `generateGasReport` line 965: `this.gasEstimations.reduce((sum, est) =>
sum + BigInt(est.actual), 0n)`. -/
def totalActualGas (gasEstimations : List GasEstimation) : Int :=
  gasEstimations.foldl (fun sum est => sum + est.actual) 0

/-- The report object built by `generateGasReport` (lines 970-990).
`accuracyRate` in the source is the JavaScript number
`((accurateEstimations.length / totalEstimations) * 100).toFixed(2) + "%"`;
the field here carries the exact ratio being formatted (the formatting to
two decimals is presentation of this value).  `averageEstimated` and
`averageActual` are `BigInt` divisions, i.e. `Int.tdiv`. -/
structure GasReport where
  totalEstimations : Nat
  accurateEstimations : Nat
  overEstimations : Nat
  underEstimations : Nat
  accuracyRate : Rat
  totalEstimatedGas : Int
  totalActualGas : Int
  estimationEfficiency : String
  averageEstimated : Int
  averageActual : Int
  deriving Repr, DecidableEq

/-- Shallow embedding of `generateGasReport` (lines 944-1002).  On an empty
record array the source logs a notice and returns the empty object `{}`
(line 950), which carries none of the report fields: this is the `none`
branch.  Otherwise it filters the accurate and over-estimated records,
sums the estimated and actual gas with `BigInt` accumulation, and builds
the report object, with `underEstimations` computed as
`this.gasEstimations.length - overEstimations.length` (line 974). -/
def generateGasReport (gasEstimations : List GasEstimation) : Option GasReport :=
  let totalEstimations := gasEstimations.length
  if totalEstimations = 0 then
    none
  else
    let accurateEstimations := gasEstimations.filter (fun e => e.accuracy.accurate)
    let overEstimations := gasEstimations.filter (fun e => e.accuracy.overEstimated)
    some {
      totalEstimations := totalEstimations
      accurateEstimations := accurateEstimations.length
      overEstimations := overEstimations.length
      underEstimations := gasEstimations.length - overEstimations.length
      accuracyRate := ((accurateEstimations.length : Rat) / (totalEstimations : Rat)) * 100
      totalEstimatedGas := totalEstimatedGas gasEstimations
      totalActualGas := totalActualGas gasEstimations
      estimationEfficiency :=
        if totalEstimatedGas gasEstimations > totalActualGas gasEstimations then
          "Over-estimated"
        else if totalEstimatedGas gasEstimations < totalActualGas gasEstimations then
          "Under-estimated"
        else
          "Perfect"
      averageEstimated := Int.tdiv (totalEstimatedGas gasEstimations) (totalEstimations : Int)
      averageActual := Int.tdiv (totalActualGas gasEstimations) (totalEstimations : Int) }

/-- State-passing form of the `generateGasReport()` method.  Its body reads
`this.gasEstimations` only through `length`, `filter` and `reduce` — none
of which mutate the array — and assigns no instance field, so the
translated state transition returns the state unchanged. -/
def generateGasReportS (s : TesterState) : Option GasReport × TesterState :=
  (generateGasReport s.gasEstimations, s)

/-- Per-operation-type tallies of `testGasEstimationAccuracy` (lines
901-919): the loop buckets records by `estimation.type` and, within each
bucket, counts the total, the accurate, the over-estimated and the
under-estimated records; for a fixed type those tallies are the lengths of
the corresponding filters of the bucket. -/
structure TypeStats where
  total : Nat
  accurate : Nat
  overEstimated : Nat
  underEstimated : Nat
  deriving Repr, DecidableEq

/-- The per-type statistics for one operation type: the `typeAnalysis[type]`
entry built by the loop at lines 901-919. -/
def typeAnalysis (gasEstimations : List GasEstimation) (ty : String) : TypeStats :=
  let group := gasEstimations.filter (fun e => e.type == ty)
  { total := group.length
    accurate := (group.filter (fun e => e.accuracy.accurate)).length
    overEstimated := (group.filter (fun e => e.accuracy.overEstimated)).length
    underEstimated := (group.filter (fun e => e.accuracy.underEstimated)).length }

/-- Sample record: the eoa_transfer record pushed at lines 214-219 for a
standard transfer where estimate and receipt agree at 21000 gas; its
`accuracy` field is the value `calculateAccuracy(21000n, 21000n)` returns. -/
def sampleTransfer : GasEstimation :=
  { type := "eoa_transfer", estimated := 21000, actual := 21000,
    accuracy := { accurate := true, overEstimated := false, underEstimated := true,
                  differenceWei := 0, differencePercentage := 0 } }

/-- Sample record: a deployment measured at estimate 500000 against actual
480000; its `accuracy` field is the value `calculateAccuracy(500000n, 480000n)`
returns. -/
def sampleDeployment : GasEstimation :=
  { type := "deployment", estimated := 500000, actual := 480000,
    accuracy := { accurate := true, overEstimated := true, underEstimated := false,
                  differenceWei := 20000, differencePercentage := 4 } }

/-- The sample transfer record carries exactly the verdict the classifier
computes for its gas pair, as the push site does. -/
theorem sampleTransfer_accuracy_eq :
    calculateAccuracy sampleTransfer.estimated sampleTransfer.actual
      = some sampleTransfer.accuracy := by decide

/-- The sample deployment record carries exactly the verdict the classifier
computes for its gas pair, as the push site does. -/
theorem sampleDeployment_accuracy_eq :
    calculateAccuracy sampleDeployment.estimated sampleDeployment.actual
      = some sampleDeployment.accuracy := by decide

/-- Any verdict `calculateAccuracy` actually returns has its direction flags
determined by the strict comparison `estimated > actual`, with
`underEstimated` the negation of `overEstimated`. -/
theorem calculateAccuracy_some_flags (e a : Int) (v : AccuracyVerdict)
    (h : calculateAccuracy e a = some v) :
    v.overEstimated = decide (e > a) ∧ v.underEstimated = !decide (e > a) := by
  by_cases ha : a = 0
  · subst ha
    simp [calculateAccuracy] at h
  · simp only [calculateAccuracy, if_neg ha, Option.some.injEq] at h
    subst h
    exact ⟨rfl, rfl⟩

/-- Claim C1 counterexample: at `(estimated, actual) = (0, 0)` the classifier
hits the `BigInt` division by zero at the `percentage` line and throws a
`RangeError` (the `none` result); it does not return a verdict with
`accurate == true`, contrary to the claim that `classify(0, 0).accurate == true`
without raising. -/
theorem calculateAccuracy_zero_zero_cex :
    calculateAccuracy 0 0 = none ∧
      ¬∃ v, calculateAccuracy 0 0 = some v ∧ v.accurate = true := by
  refine ⟨rfl, ?_⟩
  rintro ⟨v, hv, -⟩
  simp [calculateAccuracy] at hv

/-- Claim C1 amended: for every `estimated`, when `actual == 0` the
classifier raises (`BigInt` division by zero in the `percentage`
computation) instead of returning a verdict; there is no special case
defining `accurate` as `estimated == 0`. -/
theorem calculateAccuracy_zero_actual_throws (e : Int) :
    calculateAccuracy e 0 = none := by
  simp [calculateAccuracy]

/-- Claim C3 counterexample: a negative estimated gas of `-1` (with actual
`10`) is accepted by the classifier, which returns an ordinary verdict —
no error of any kind is raised — and the collector's push appends a record
with negative gas unconditionally.  No `InvalidRecordError` exists anywhere
in the repository. -/
theorem negative_inputs_accepted_cex :
    calculateAccuracy (-1) 10 =
      some { accurate := false, overEstimated := false, underEstimated := true,
             differenceWei := 11, differencePercentage := 110 } ∧
    (pushEstimation ⟨[]⟩
        { type := "eoa_transfer", estimated := -1, actual := 10,
          accuracy := { accurate := false, overEstimated := false, underEstimated := true,
                        differenceWei := 11, differencePercentage := 110 } }).gasEstimations =
      [{ type := "eoa_transfer", estimated := -1, actual := 10,
         accuracy := { accurate := false, overEstimated := false, underEstimated := true,
                       differenceWei := 11, differencePercentage := 110 } }] := by
  exact ⟨by decide, rfl⟩

/-- Claim C3 amended: the source validates nothing.  The collector's append
(`this.gasEstimations.push`) accepts any record, negative gas included, and
for any `actual ≠ 0` the classifier returns a verdict for negative inputs
by the same formulas instead of raising; the repository defines no
`InvalidRecordError`. -/
theorem negative_inputs_not_validated (s : TesterState) (r : GasEstimation)
    (e a : Int) (hneg : e < 0 ∨ a < 0) (ha : a ≠ 0) :
    (pushEstimation s r).gasEstimations = s.gasEstimations ++ [r] ∧
      (calculateAccuracy e a).isSome = true := by
  refine ⟨rfl, ?_⟩
  simp [calculateAccuracy, ha]

/-- Witness for the amended claim C3 at a concrete negative input. -/
theorem negative_inputs_not_validated_witness :
    (pushEstimation ⟨[]⟩ sampleTransfer).gasEstimations = [sampleTransfer] ∧
      (calculateAccuracy (-1) 10).isSome = true :=
  negative_inputs_not_validated ⟨[]⟩ sampleTransfer (-1) 10 (Or.inl (by decide))
    (by decide)

/-- Claim C2: for non-negative `estimated` and positive `actual` the
`accurate` flag is exactly the integer-scaled 5% tolerance predicate
`|estimated - actual| * 100 <= actual * 5`.  The source's
`diff <= (actual * 5n) / 100n` with truncating `BigInt` division is
equivalent because `diff` is an integer and `actual * 5n >= 0`.  The
arithmetic is unbounded-precision throughout (`BigInt` in the source,
`Int` here), so the equivalence holds for gas values beyond `2^53`. -/
theorem calculateAccuracy_accurate_iff_scaled (e a : Int) (he : 0 ≤ e) (ha : 0 < a) :
    ∃ v, calculateAccuracy e a = some v ∧
      (v.accurate = true ↔ |e - a| * 100 ≤ a * 5) := by
  have hne : a ≠ 0 := ha.ne'
  simp only [calculateAccuracy, if_neg hne]
  refine ⟨_, rfl, ?_⟩
  simp only [decide_eq_true_eq]
  have htd : Int.tdiv (a * 5) 100 = (a * 5) / 100 :=
    Int.tdiv_eq_ediv (by positivity) (by norm_num)
  have habs : (if e > a then e - a else a - e) = |e - a| := by
    rcases le_or_lt e a with h | h
    · rw [if_neg (not_lt.mpr h), abs_of_nonpos (by omega)]
      ring
    · rw [if_pos h, abs_of_pos (by omega)]
  rw [habs, htd]
  have hd : 0 ≤ |e - a| := abs_nonneg _
  generalize |e - a| = d at hd ⊢
  omega

/-- Witness for claim C2 at the concrete pair (100000, 130000) of the
spec's scenario C. -/
theorem calculateAccuracy_accurate_iff_scaled_witness :
    ∃ v, calculateAccuracy 100000 130000 = some v ∧
      (v.accurate = true ↔ |(100000 : Int) - 130000| * 100 ≤ 130000 * 5) :=
  calculateAccuracy_accurate_iff_scaled 100000 130000 (by norm_num) (by norm_num)

/-- Claim C5: with positive `actual`, the verdict's `overEstimated` flag is
the strict comparison `estimated > actual` and `underEstimated` is its
negation; in particular an exact match `estimated == actual` is classified
`accurate == true`, `overEstimated == false`, `underEstimated == true`. -/
theorem equality_classified_as_under (e a : Int) (he : 0 ≤ e) (ha : 0 < a) :
    (∃ v, calculateAccuracy e a = some v ∧
      v.overEstimated = decide (e > a) ∧ v.underEstimated = !decide (e > a)) ∧
    (e = a → ∃ v, calculateAccuracy e a = some v ∧
      v.accurate = true ∧ v.overEstimated = false ∧ v.underEstimated = true) := by
  have hne : a ≠ 0 := ha.ne'
  constructor
  · simp only [calculateAccuracy, if_neg hne]
    exact ⟨_, rfl, rfl, rfl⟩
  · rintro rfl
    simp only [calculateAccuracy, if_neg hne, gt_iff_lt, lt_irrefl, if_false, sub_self]
    refine ⟨_, rfl, ?_, by simp, by simp⟩
    simp only [decide_eq_true_eq]
    exact Int.tdiv_nonneg (by positivity) (by norm_num)

/-- Witness for claim C5 at the standard-transfer pair (21000, 21000). -/
theorem equality_classified_as_under_witness :
    (∃ v, calculateAccuracy 21000 21000 = some v ∧
      v.overEstimated = decide ((21000 : Int) > 21000) ∧
      v.underEstimated = !decide ((21000 : Int) > 21000)) ∧
    ((21000 : Int) = 21000 → ∃ v, calculateAccuracy 21000 21000 = some v ∧
      v.accurate = true ∧ v.overEstimated = false ∧ v.underEstimated = true) :=
  equality_classified_as_under 21000 21000 (by norm_num) (by norm_num)

/-- Claim C4 counterexample: on zero records `generateGasReport` returns the
empty object `{}` (the `none` result), which carries no fields at all — in
particular there is no report with `accuracyRate == 0` and
`estimationEfficiency == "Perfect"` as the claim states. -/
theorem generateGasReport_empty_cex :
    generateGasReport [] = none ∧
      ¬∃ rep, generateGasReport [] = some rep ∧ rep.accuracyRate = 0 ∧
        rep.estimationEfficiency = "Perfect" := by
  refine ⟨rfl, ?_⟩
  rintro ⟨rep, hrep, -⟩
  simp [generateGasReport] at hrep

/-- Claim C4 amended: `generateGasReport` on zero records does not raise —
it logs a notice and returns the empty object `{}` (embedded as `none`);
the count, rate and efficiency fields are absent rather than
`0`/`"Perfect"`. -/
theorem generateGasReport_empty_returns_none :
    generateGasReport [] = none := rfl

/-- Folding `fun sum est => sum + f est` over a list, as the source's
`reduce((sum, est) => sum + BigInt(...), 0n)` does, adds the sum of the
projected values to the initial accumulator. -/
theorem foldl_add_proj (f : GasEstimation → Int) (l : List GasEstimation) :
    ∀ init : Int, l.foldl (fun sum est => sum + f est) init = init + (l.map f).sum := by
  induction l with
  | nil => intro init; simp
  | cons e t ih =>
    intro init
    simp only [List.foldl_cons, List.map_cons, List.sum_cons, ih]
    ring

/-- The estimated-gas total is invariant under permutation of the records. -/
theorem totalEstimatedGas_perm (rs rs2 : List GasEstimation) (h : rs.Perm rs2) :
    totalEstimatedGas rs = totalEstimatedGas rs2 := by
  unfold totalEstimatedGas
  rw [foldl_add_proj, foldl_add_proj, (h.map (fun est => est.estimated)).sum_eq]

/-- The actual-gas total is invariant under permutation of the records. -/
theorem totalActualGas_perm (rs rs2 : List GasEstimation) (h : rs.Perm rs2) :
    totalActualGas rs = totalActualGas rs2 := by
  unfold totalActualGas
  rw [foldl_add_proj, foldl_add_proj, (h.map (fun est => est.actual)).sum_eq]

/-- A list splits into the records satisfying a Boolean predicate and those
failing it. -/
theorem length_filter_add_length_filter_not (p : GasEstimation → Bool)
    (l : List GasEstimation) :
    (l.filter p).length + (l.filter fun x => !p x).length = l.length := by
  induction l with
  | nil => rfl
  | cons e t ih =>
    by_cases hp : p e <;> simp [List.filter_cons, hp, ← ih] <;> omega

/-- Claim C7 counterexample: at `(500000, 480000)` the classifier's
`differencePercentage` is the `BigInt`-truncated `4` (the string `"4%"`),
not approximately `4.1667%`: the exact percentage `20000 / 480000 * 100`
differs from the returned value by more than `1/10`.  The other claimed
fields do hold (`differenceWei == 20000`, `accurate == true`,
`overEstimated == true`). -/
theorem scenarioB_percentage_cex :
    calculateAccuracy 500000 480000 =
      some { accurate := true, overEstimated := true, underEstimated := false,
             differenceWei := 20000, differencePercentage := 4 } ∧
      (1 : Rat) / 10 < |((20000 : Rat) / 480000) * 100 - 4| := by
  constructor
  · decide
  · norm_num [abs_of_nonneg]

/-- Claim C7 amended: for `(500000, 480000)` the classifier returns
`absoluteDifference == 20000`, `accurate == true` (within the 5% band),
`overEstimated == true`, and `differencePercentage == 4` — the integer
truncation of the exact ratio, which lies between 4% and 5%. -/
theorem scenarioB_amended :
    ∃ v, calculateAccuracy 500000 480000 = some v ∧
      v.differenceWei = 20000 ∧ v.accurate = true ∧ v.overEstimated = true ∧
      v.differencePercentage = 4 ∧
      (4 : Rat) ≤ ((20000 : Rat) / 480000) * 100 ∧
      ((20000 : Rat) / 480000) * 100 < 5 := by
  refine ⟨{ accurate := true, overEstimated := true, underEstimated := false,
            differenceWei := 20000, differencePercentage := 4 },
    by decide, rfl, rfl, rfl, rfl, by norm_num, by norm_num⟩

/-- Claim C6: for a non-empty record list the report's
`estimationEfficiency` is `"Over-estimated"` exactly when the summed
estimated gas strictly exceeds the summed actual gas, `"Under-estimated"`
exactly when it is strictly less, and `"Perfect"` exactly when the two
sums coincide. -/
theorem estimationEfficiency_matches_totals (rs : List GasEstimation) (hne : rs ≠ []) :
    ∃ rep, generateGasReport rs = some rep ∧
      (rep.estimationEfficiency = "Over-estimated" ↔
        totalEstimatedGas rs > totalActualGas rs) ∧
      (rep.estimationEfficiency = "Under-estimated" ↔
        totalEstimatedGas rs < totalActualGas rs) ∧
      (rep.estimationEfficiency = "Perfect" ↔
        totalEstimatedGas rs = totalActualGas rs) := by
  have hlen : rs.length ≠ 0 := fun h0 => hne (List.length_eq_zero.mp h0)
  simp only [generateGasReport, if_neg hlen]
  refine ⟨_, rfl, ?_⟩
  dsimp only
  rcases lt_trichotomy (totalEstimatedGas rs) (totalActualGas rs) with hlt | heq | hgt
  · rw [if_neg (by omega), if_pos hlt]
    exact ⟨iff_of_false (by decide) (by omega),
      iff_of_true rfl hlt,
      iff_of_false (by decide) (by omega)⟩
  · rw [if_neg (by omega), if_neg (by omega)]
    exact ⟨iff_of_false (by decide) (by omega),
      iff_of_false (by decide) (by omega),
      iff_of_true rfl heq⟩
  · rw [if_pos hgt]
    exact ⟨iff_of_true rfl hgt,
      iff_of_false (by decide) (by omega),
      iff_of_false (by decide) (by omega)⟩

/-- Witness for claim C6 on the one-record list containing the
over-estimated deployment record. -/
theorem estimationEfficiency_matches_totals_witness :
    ∃ rep, generateGasReport [sampleDeployment] = some rep ∧
      (rep.estimationEfficiency = "Over-estimated" ↔
        totalEstimatedGas [sampleDeployment] > totalActualGas [sampleDeployment]) ∧
      (rep.estimationEfficiency = "Under-estimated" ↔
        totalEstimatedGas [sampleDeployment] < totalActualGas [sampleDeployment]) ∧
      (rep.estimationEfficiency = "Perfect" ↔
        totalEstimatedGas [sampleDeployment] = totalActualGas [sampleDeployment]) :=
  estimationEfficiency_matches_totals [sampleDeployment] (List.cons_ne_nil _ _)

/-- Claim C8: permuting the record list (same multiset of records, different
insertion order) leaves every field of the global report and every
per-category tally unchanged. -/
theorem generateGasReport_perm_invariant (rs rs2 : List GasEstimation)
    (h : rs.Perm rs2) :
    generateGasReport rs = generateGasReport rs2 ∧
      ∀ ty, typeAnalysis rs ty = typeAnalysis rs2 ty := by
  have hlen : rs.length = rs2.length := h.length_eq
  have hacc : (rs.filter fun e => e.accuracy.accurate).length
      = (rs2.filter fun e => e.accuracy.accurate).length :=
    (h.filter (fun e => e.accuracy.accurate)).length_eq
  have hover : (rs.filter fun e => e.accuracy.overEstimated).length
      = (rs2.filter fun e => e.accuracy.overEstimated).length :=
    (h.filter (fun e => e.accuracy.overEstimated)).length_eq
  have hest : totalEstimatedGas rs = totalEstimatedGas rs2 :=
    totalEstimatedGas_perm rs rs2 h
  have hact : totalActualGas rs = totalActualGas rs2 := totalActualGas_perm rs rs2 h
  constructor
  · simp only [generateGasReport, hlen, hacc, hover, hest, hact]
  · intro ty
    have hg : (rs.filter fun e => e.type == ty).Perm
        (rs2.filter fun e => e.type == ty) := h.filter (fun e => e.type == ty)
    have h1 := hg.length_eq
    have h2 := (hg.filter (fun e => e.accuracy.accurate)).length_eq
    have h3 := (hg.filter (fun e => e.accuracy.overEstimated)).length_eq
    have h4 := (hg.filter (fun e => e.accuracy.underEstimated)).length_eq
    simp only [typeAnalysis, h1, h2, h3, h4]

/-- Witness for claim C8 on a two-record list and its swap. -/
theorem generateGasReport_perm_invariant_witness :
    generateGasReport [sampleTransfer, sampleDeployment]
        = generateGasReport [sampleDeployment, sampleTransfer] ∧
      ∀ ty, typeAnalysis [sampleTransfer, sampleDeployment] ty
        = typeAnalysis [sampleDeployment, sampleTransfer] ty :=
  generateGasReport_perm_invariant _ _
    (List.Perm.swap sampleDeployment sampleTransfer [])

/-- Claim C9: `generateGasReport()` is a pure function of the record array.
Its state-passing translation leaves the tester state unchanged, a second
call on that state returns the identical report, and the per-category
statistics computed before and after the call agree. -/
theorem generateGasReport_pure_of_state (s : TesterState) :
    (generateGasReportS s).2 = s ∧
      (generateGasReportS ((generateGasReportS s).2)).1 = (generateGasReportS s).1 ∧
      ∀ ty, typeAnalysis ((generateGasReportS s).2).gasEstimations ty
        = typeAnalysis s.gasEstimations ty :=
  ⟨rfl, rfl, fun _ => rfl⟩

/-- Claim C10: for a non-empty record list whose records carry the verdict
`calculateAccuracy` produced for them (as every push site does), the report
satisfies `underEstimations = totalEstimations - overEstimations`, hence
`overEstimations + underEstimations = totalEstimations`; `underEstimations`
equals the count of records flagged under-estimated, every record lies in
exactly one of the two buckets, and a record with `estimated == actual` is
counted as an under-estimation. -/
theorem over_under_partition (rs : List GasEstimation) (hne : rs ≠ [])
    (hwf : ∀ r ∈ rs, calculateAccuracy r.estimated r.actual = some r.accuracy) :
    ∃ rep, generateGasReport rs = some rep ∧
      rep.underEstimations = rep.totalEstimations - rep.overEstimations ∧
      rep.overEstimations + rep.underEstimations = rep.totalEstimations ∧
      rep.underEstimations = (rs.filter fun r => r.accuracy.underEstimated).length ∧
      ∀ r ∈ rs, r.accuracy.underEstimated = !r.accuracy.overEstimated ∧
        (r.estimated = r.actual → r.accuracy.overEstimated = false ∧
          r.accuracy.underEstimated = true) := by
  have hflags : ∀ r ∈ rs, r.accuracy.overEstimated = decide (r.estimated > r.actual) ∧
      r.accuracy.underEstimated = !decide (r.estimated > r.actual) :=
    fun r hr => calculateAccuracy_some_flags _ _ _ (hwf r hr)
  have hlen : rs.length ≠ 0 := fun h0 => hne (List.length_eq_zero.mp h0)
  have hle : (rs.filter fun e => e.accuracy.overEstimated).length ≤ rs.length :=
    List.length_filter_le _ _
  have hcongr : (rs.filter fun r => r.accuracy.underEstimated)
      = rs.filter fun r => !r.accuracy.overEstimated := by
    apply List.filter_congr
    intro r hr
    rw [(hflags r hr).1, (hflags r hr).2]
  have hsplit := length_filter_add_length_filter_not
    (fun e => e.accuracy.overEstimated) rs
  simp only [generateGasReport, if_neg hlen]
  refine ⟨_, rfl, ?_, ?_, ?_, ?_⟩
  · rfl
  · dsimp only
    omega
  · dsimp only
    rw [hcongr]
    omega
  · intro r hr
    refine ⟨by rw [(hflags r hr).1, (hflags r hr).2], fun heq => ?_⟩
    have h1 := (hflags r hr).1
    have h2 := (hflags r hr).2
    rw [heq] at h1 h2
    simp only [gt_iff_lt, lt_irrefl, decide_False] at h1 h2
    exact ⟨h1, by rw [h2]; rfl⟩

/-- Witness for claim C10 on the one-record list containing the exact-match
transfer record. -/
theorem over_under_partition_witness :
    ∃ rep, generateGasReport [sampleTransfer] = some rep ∧
      rep.underEstimations = rep.totalEstimations - rep.overEstimations ∧
      rep.overEstimations + rep.underEstimations = rep.totalEstimations ∧
      rep.underEstimations
        = ([sampleTransfer].filter fun r => r.accuracy.underEstimated).length ∧
      ∀ r ∈ [sampleTransfer], r.accuracy.underEstimated = !r.accuracy.overEstimated ∧
        (r.estimated = r.actual → r.accuracy.overEstimated = false ∧
          r.accuracy.underEstimated = true) :=
  over_under_partition [sampleTransfer] (List.cons_ne_nil _ _) (by decide)
